import Mathlib

/-!
Verification of the event CRUD gateway (`src/functions/index.js`).

The six HTTP handlers (`createEvent`, `getAllEvents`, `getEventById`,
`updateEvent`, `deleteEvent`, `filterEvents`) are embedded as pure
functions.  The Firestore SDK is an external collaborator, so it is
modelled as a record `DB` of operations returning `Except`; the
concrete instance `firestoreDB` realises the documented Firestore
semantics over an association-list store.  Each handler returns the
HTTP response, the resulting store, and the trace of store operations
it issued, so that ordering and absence of store calls can be stated.
The JavaScript date parser is an explicit parameter `parse`; an absent
or unparseable date becomes the invalid (NaN) timestamp, which no
equality filter matches.
-/

namespace Panda

/-- A Firestore timestamp value: a concrete epoch-millisecond instant, or the
invalid (NaN) timestamp obtained from `Timestamp.fromDate(new Date(x))` when
`x` is absent or unparseable. -/
inductive Ts where
  | mk (ms : Int)
  | nan
deriving DecidableEq, Repr

/-- Firestore equality comparison on timestamps: the invalid (NaN) timestamp
matches nothing, itself included. -/
def tsMatch : Ts → Ts → Bool
  | Ts.mk a, Ts.mk b => a == b
  | _, _ => false

/-- A stored event document.  Field values are `Option String` because the
update handler writes whatever the body held, absent fields included. -/
structure EventDoc where
  title : Option String
  description : Option String
  date : Ts
  location : Option String
  organizer : Option String
  eventType : Option String
  updatedAt : Nat
deriving DecidableEq, Repr

/-- The events collection: documents keyed by id, plus a counter from which
fresh ids are drawn. -/
structure Store where
  docs : List (String × EventDoc)
  nextId : Nat
deriving DecidableEq, Repr

/-- The store operations a handler can issue, recorded in its trace. -/
inductive StoreOp where
  | collAdd
  | collGet
  | docGet (id : Option String)
  | docUpdate (id : Option String)
  | docDelete (id : Option String)
  | query (eventType : Option String) (date : Option Ts)
deriving DecidableEq, Repr

/-- The Firestore SDK interface used by the handlers.  Every operation may
throw (return `Except.error`); handlers catch that into an HTTP 500. -/
structure DB where
  add : Store → EventDoc → Except String (String × Store)
  collGet : Store → Except String (List (String × EventDoc))
  docGet : Store → Option String → Except String (Option (String × EventDoc))
  docUpdate : Store → Option String → EventDoc → Except String Store
  docDelete : Store → Option String → Except String Store
  query : Store → Option String → Option Ts → Except String (List (String × EventDoc))

/-- The predicate a document must satisfy to be returned by the combined
`where("eventType","==",·)` / `where("date","==",·)` query. -/
def matchesFilter (et : Option String) (dt : Option Ts) (d : EventDoc) : Bool :=
  (match et with
   | none => true
   | some v => d.eventType == some v)
  && (match dt with
      | none => true
      | some t => tsMatch d.date t)

/-- The concrete Firestore semantics: `add` assigns a fresh id and appends;
`doc(undefined)` throws; `update` throws NOT_FOUND on a missing document and
otherwise overwrites the written fields; `delete` is idempotent; `query`
filters by exact equality. -/
def firestoreDB : DB where
  add := fun s d =>
    Except.ok (toString s.nextId, ⟨s.docs ++ [(toString s.nextId, d)], s.nextId + 1⟩)
  collGet := fun s => Except.ok s.docs
  docGet := fun s oid =>
    match oid with
    | none => Except.error ("invalid document id")
    | some i => Except.ok (s.docs.find? (fun p => p.1 == i))
  docUpdate := fun s oid d =>
    match oid with
    | none => Except.error ("invalid document id")
    | some i =>
      if (s.docs.find? (fun p => p.1 == i)).isSome then
        Except.ok ⟨s.docs.map (fun p => if p.1 == i then (p.1, d) else p), s.nextId⟩
      else
        Except.error ("NOT_FOUND")
  docDelete := fun s oid =>
    match oid with
    | none => Except.error ("invalid document id")
    | some i => Except.ok ⟨s.docs.filter (fun p => !(p.1 == i)), s.nextId⟩
  query := fun s et dt => Except.ok (s.docs.filter (fun p => matchesFilter et dt p.2))

/-- The six content fields destructured from `req.body`; each may be absent. -/
structure ReqBody where
  title : Option String
  description : Option String
  date : Option String
  location : Option String
  organizer : Option String
  eventType : Option String
deriving DecidableEq, Repr

/-- An incoming HTTP request: method, the query parameters the handlers read,
and the body. -/
structure Req where
  method : String
  queryId : Option String
  queryEventType : Option String
  queryDate : Option String
  body : ReqBody
deriving DecidableEq, Repr

/-- JavaScript falsiness of an optional string: `undefined` and `""` are
falsy, every other string is truthy. -/
def falsy : Option String → Bool
  | none => true
  | some s => s == ""

/-- Model of `Timestamp.fromDate(new Date(x))`: an absent value or a string the parser
rejects yields the invalid (NaN) timestamp. -/
def jsNewDate (parse : String → Option Int) : Option String → Ts
  | none => Ts.nan
  | some s =>
    match parse s with
    | none => Ts.nan
    | some ms => Ts.mk ms

/-- The bodies of the JSON responses the handlers build. -/
inductive RespBody where
  | createSuccess (id : String)
      (title description date location organizer eventType : Option String)
      (timestamp : Nat)
  | eventsSuccess (events : List (String × EventDoc)) (timestamp : Nat)
  | docSuccess (data : Option (String × EventDoc)) (timestamp : Nat)
  | deleteSuccess (message : String) (timestamp : Nat)
  | updatePlain (message : String)
  | filterRaw (events : List (String × EventDoc))
  | failure (message : String) (code : Nat) (details : String) (timestamp : Nat)
deriving DecidableEq, Repr

/-- An HTTP response: status code and JSON body. -/
structure Resp where
  status : Nat
  body : RespBody
deriving DecidableEq, Repr

/-- What a handler invocation produces: the response, the store afterwards,
and the trace of store operations issued, in order. -/
structure HResult where
  resp : Resp
  store : Store
  ops : List StoreOp
deriving DecidableEq, Repr

/-- The failure envelope `res.status(status).json(\x7bstatus:"failure", message,
error:\x7bcode, details\x7d, timestamp\x7d)`. -/
def failureResp (status : Nat) (message : String) (code : Nat) (details : String)
    (t : Nat) : Resp :=
  ⟨status, RespBody.failure message code details t⟩

/-- The document `createEvent` passes to `collection("events").add`: the six
body fields, the parsed date, and the server-assigned `updatedAt`. -/
def createDoc (parse : String → Option Int) (srvTime : Nat) (b : ReqBody) : EventDoc :=
  { title := b.title
    description := b.description
    date := jsNewDate parse b.date
    location := b.location
    organizer := b.organizer
    eventType := b.eventType
    updatedAt := srvTime }

/-- The document `updateEvent` passes to `doc(id).update`: same shape as the
create document, absent body fields written as absent. -/
def updateDoc (parse : String → Option Int) (srvTime : Nat) (b : ReqBody) : EventDoc :=
  { title := b.title
    description := b.description
    date := jsNewDate parse b.date
    location := b.location
    organizer := b.organizer
    eventType := b.eventType
    updatedAt := srvTime }

/-- Handler `exports.createEvent`: POST only, six required body fields, then one
`add`; echoes the submitted fields (raw date string included) with 201. -/
def createEvent (parse : String → Option Int) (timeNow srvTime : Nat) (db : DB)
    (s : Store) (req : Req) : HResult :=
  if req.method != "POST" then
    ⟨failureResp 405 ("Method Not Allowed") 405 ("Only POST requests are allowed") timeNow,
      s, []⟩
  else if falsy req.body.title || falsy req.body.description || falsy req.body.date
      || falsy req.body.location || falsy req.body.organizer || falsy req.body.eventType then
    ⟨failureResp 400 ("Missing required fields") 400 ("Please provide all required fields") timeNow,
      s, []⟩
  else
    match db.add s (createDoc parse srvTime req.body) with
    | Except.ok (newId, s1) =>
      ⟨⟨201, RespBody.createSuccess newId req.body.title req.body.description
          req.body.date req.body.location req.body.organizer req.body.eventType timeNow⟩,
        s1, [StoreOp.collAdd]⟩
    | Except.error _ =>
      ⟨failureResp 500 ("Error creating event") 500 ("Unable to create new event") timeNow,
        s, [StoreOp.collAdd]⟩

/-- Handler `exports.getAllEvents`: reads the whole collection *before* the method
check; non-GET then gets 405, a successful GET gets 201 (source quirk). -/
def getAllEvents (timeNow : Nat) (db : DB) (s : Store) (req : Req) : HResult :=
  match db.collGet s with
  | Except.error _ =>
    ⟨failureResp 500 ("Error fetching all event") 500 ("Unable to get all events") timeNow,
      s, [StoreOp.collGet]⟩
  | Except.ok events =>
    if req.method != "GET" then
      ⟨failureResp 405 ("Method Not Allowed") 405 ("Only GET requests are allowed") timeNow,
        s, [StoreOp.collGet]⟩
    else
      ⟨⟨201, RespBody.eventsSuccess events timeNow⟩, s, [StoreOp.collGet]⟩

/-- Handler `exports.getEventById`: GET only; fetches `doc(id)`; a missing document
yields 200 with empty data, never 404. -/
def getEventById (timeNow : Nat) (db : DB) (s : Store) (req : Req) : HResult :=
  if req.method != "GET" then
    ⟨failureResp 405 ("Method Not Allowed") 405 ("Only GET requests are allowed") timeNow,
      s, []⟩
  else
    match db.docGet s req.queryId with
    | Except.error _ =>
      ⟨failureResp 500 ("Error fetching event") 500 ("Unable to get event") timeNow,
        s, [StoreOp.docGet req.queryId]⟩
    | Except.ok odoc =>
      ⟨⟨200, RespBody.docSuccess odoc timeNow⟩, s, [StoreOp.docGet req.queryId]⟩

/-- Handler `exports.updateEvent`: no method or field validation; one `update` call;
success answers 200 with the bare message body. -/
def updateEvent (parse : String → Option Int) (timeNow srvTime : Nat) (db : DB)
    (s : Store) (req : Req) : HResult :=
  match db.docUpdate s req.queryId (updateDoc parse srvTime req.body) with
  | Except.ok s1 =>
    ⟨⟨200, RespBody.updatePlain ("Event updated")⟩, s1, [StoreOp.docUpdate req.queryId]⟩
  | Except.error _ =>
    ⟨failureResp 500 ("Error updating event") 500 ("Unable to update event") timeNow,
      s, [StoreOp.docUpdate req.queryId]⟩

/-- Handler `exports.deleteEvent`: no method check; one `delete` call; success answers
200 with the success envelope. -/
def deleteEvent (timeNow : Nat) (db : DB) (s : Store) (req : Req) : HResult :=
  match db.docDelete s req.queryId with
  | Except.ok s1 =>
    ⟨⟨200, RespBody.deleteSuccess ("Event deleted") timeNow⟩, s1, [StoreOp.docDelete req.queryId]⟩
  | Except.error _ =>
    ⟨failureResp 500 ("Error deleting event") 500 ("Unable to delete event") timeNow,
      s, [StoreOp.docDelete req.queryId]⟩

/-- Handler `exports.filterEvents`: requires at least one truthy filter, builds the
equality query, and answers 200 with the raw array of matches. -/
def filterEvents (parse : String → Option Int) (timeNow : Nat) (db : DB)
    (s : Store) (req : Req) : HResult :=
  if falsy req.queryEventType && falsy req.queryDate then
    ⟨failureResp 400 ("Missing required fields") 400 ("Please provide at least one filter") timeNow,
      s, []⟩
  else
    let dateFilter := jsNewDate parse req.queryDate
    let etFilter := if falsy req.queryEventType then none else req.queryEventType
    let dtFilter := if falsy req.queryDate then none else some dateFilter
    match db.query s etFilter dtFilter with
    | Except.ok events =>
      ⟨⟨200, RespBody.filterRaw events⟩, s, [StoreOp.query etFilter dtFilter]⟩
    | Except.error _ =>
      ⟨failureResp 500 ("Error filtering event") 500 ("Unable to filter event") timeNow,
        s, [StoreOp.query etFilter dtFilter]⟩

/-- A response is a well-formed failure when, if its status is 400, 405 or
500, its body is the failure envelope stamped with the request-start time. -/
def failureWellFormed (r : Resp) (t : Nat) : Prop :=
  r.status = 400 ∨ r.status = 405 ∨ r.status = 500 →
    ∃ m c dtl, r.body = RespBody.failure m c dtl t

/-- A fixed date parser for concrete test inputs. -/
def parse0 : String → Option Int :=
  fun s => if s == "2024-05-01" then some 1714521600000 else none

/-- The empty store. -/
def store0 : Store := ⟨[], 0⟩

/-- An empty request body. -/
def emptyBody : ReqBody := ⟨none, none, none, none, none, none⟩

/-- The create payload from the end-to-end scenario in the spec. -/
def meetupBody : ReqBody :=
  ⟨some ("Meetup"), some ("d"), some ("2024-05-01"), some ("Hall A"),
    some ("Org"), some ("social")⟩

/-- The POST create request of the end-to-end scenario. -/
def reqCreate0 : Req := ⟨"POST", none, none, none, meetupBody⟩

/-- A GET filter request with `eventType=social` and no date. -/
def reqFilterSocial : Req := ⟨"GET", none, some ("social"), none, emptyBody⟩

/-- A GET request with no query parameters at all. -/
def reqBare : Req := ⟨"GET", none, none, none, emptyBody⟩

/-- A store client whose update is a no-op on a nonexistent id, the other
inherited store behaviour admitted by the spec. -/
def noopUpdateDB : DB :=
  { firestoreDB with docUpdate := fun s _ _ => Except.ok s }

/-- An update request carrying an id but an empty body. -/
def reqUpdate0 : Req := ⟨"PUT", some ("7"), none, none, emptyBody⟩

/-- A POST create request whose body is missing every field. -/
def reqCreateBad : Req := ⟨"POST", none, none, none, emptyBody⟩

/-- A GET request by an id no document carries. -/
def reqGetId : Req := ⟨"GET", some ("9"), none, none, emptyBody⟩

/-- C2: whenever the store update call succeeds, `updateEvent` answers HTTP
200 with the bare body carrying message "Event updated"; the statement is
generic in the store client and the store, so it covers in particular an id
that does not exist in the store. -/
theorem updateEvent_store_ok (parse : String → Option Int) (t srv : Nat) (db : DB)
    (s : Store) (req : Req) (s1 : Store)
    (hup : db.docUpdate s req.queryId (updateDoc parse srv req.body) = Except.ok s1) :
    (updateEvent parse t srv db s req).resp = ⟨200, RespBody.updatePlain ("Event updated")⟩ ∧
    (updateEvent parse t srv db s req).store = s1 := by
  simp [updateEvent, hup]

theorem updateEvent_store_ok_witness :
    noopUpdateDB.docUpdate store0 reqUpdate0.queryId (updateDoc parse0 4 reqUpdate0.body) =
      Except.ok store0 ∧
    store0.docs.find? (fun p => p.1 == "7") = none ∧
    (updateEvent parse0 3 4 noopUpdateDB store0 reqUpdate0).resp =
      ⟨200, RespBody.updatePlain ("Event updated")⟩ :=
  ⟨rfl, rfl, (updateEvent_store_ok parse0 3 4 noopUpdateDB store0 reqUpdate0 store0 rfl).1⟩

/-- C3: a POST create whose body has any falsy required field answers HTTP
400, leaves the store untouched, and issues no store operation. -/
theorem createEvent_missing_field (parse : String → Option Int) (t srv : Nat) (db : DB)
    (s : Store) (req : Req)
    (hm : req.method = "POST")
    (hf : falsy req.body.title = true ∨ falsy req.body.description = true ∨
      falsy req.body.date = true ∨ falsy req.body.location = true ∨
      falsy req.body.organizer = true ∨ falsy req.body.eventType = true) :
    (createEvent parse t srv db s req).resp.status = 400 ∧
    (createEvent parse t srv db s req).store = s ∧
    (createEvent parse t srv db s req).ops = [] := by
  rcases hf with h | h | h | h | h | h <;>
    simp [createEvent, failureResp, hm, h]

theorem createEvent_missing_field_witness :
    reqCreateBad.method = "POST" ∧ falsy reqCreateBad.body.title = true ∧
    (createEvent parse0 5 6 firestoreDB store0 reqCreateBad).resp.status = 400 ∧
    (createEvent parse0 5 6 firestoreDB store0 reqCreateBad).store = store0 ∧
    (createEvent parse0 5 6 firestoreDB store0 reqCreateBad).ops = [] := by
  have h := createEvent_missing_field parse0 5 6 firestoreDB store0 reqCreateBad rfl
    (Or.inl rfl)
  exact ⟨rfl, rfl, h.1, h.2.1, h.2.2⟩

/-- C4: a GET by an id matching no stored document answers HTTP 200 with an
empty data object, and no invocation of `getEventById` ever answers 404. -/
theorem getEventById_missing (t : Nat) (s : Store) (req : Req) (i : String)
    (hm : req.method = "GET") (hid : req.queryId = some i)
    (hmiss : s.docs.find? (fun p => p.1 == i) = none) :
    (getEventById t firestoreDB s req).resp = ⟨200, RespBody.docSuccess none t⟩ ∧
    ∀ (u : Nat) (db : DB) (s2 : Store) (r2 : Req),
      (getEventById u db s2 r2).resp.status ≠ 404 := by
  constructor
  · simp [getEventById, firestoreDB, hm, hid, hmiss]
  · intro u db s2 r2
    unfold getEventById
    split
    · simp [failureResp]
    · split <;> simp [failureResp]

theorem getEventById_missing_witness :
    reqGetId.method = "GET" ∧ reqGetId.queryId = some ("9") ∧
    store0.docs.find? (fun p => p.1 == "9") = none ∧
    (getEventById 11 firestoreDB store0 reqGetId).resp =
      ⟨200, RespBody.docSuccess none 11⟩ :=
  ⟨rfl, rfl, rfl,
    (getEventById_missing 11 store0 reqGetId "9" rfl rfl rfl).1⟩

/-- C5: a delete for an id matching no stored document answers HTTP 200 with
the success envelope carrying message "Event deleted" and leaves the store
unchanged. -/
theorem deleteEvent_missing_id (t : Nat) (s : Store) (req : Req) (i : String)
    (hid : req.queryId = some i)
    (hmiss : s.docs.find? (fun p => p.1 == i) = none) :
    (deleteEvent t firestoreDB s req).resp =
      ⟨200, RespBody.deleteSuccess ("Event deleted") t⟩ ∧
    (deleteEvent t firestoreDB s req).store = s := by
  have hfilter : s.docs.filter (fun p => !(p.1 == i)) = s.docs := by
    rw [List.filter_eq_self]
    intro a ha
    have := List.find?_eq_none.mp hmiss a ha
    simpa using this
  simp [deleteEvent, firestoreDB, hid, hfilter]

theorem deleteEvent_missing_id_witness :
    reqGetId.queryId = some ("9") ∧
    store0.docs.find? (fun p => p.1 == "9") = none ∧
    (deleteEvent 13 firestoreDB store0 reqGetId).resp =
      ⟨200, RespBody.deleteSuccess ("Event deleted") 13⟩ ∧
    (deleteEvent 13 firestoreDB store0 reqGetId).store = store0 :=
  ⟨rfl, rfl, (deleteEvent_missing_id 13 store0 reqGetId "9" rfl rfl).1,
    (deleteEvent_missing_id 13 store0 reqGetId "9" rfl rfl).2⟩

/-- C8: a non-POST request to `createEvent` answers HTTP 405 with the failure
envelope, leaves the store untouched, and issues no store operation. -/
theorem createEvent_bad_method (parse : String → Option Int) (t srv : Nat) (db : DB)
    (s : Store) (req : Req) (hm : req.method ≠ "POST") :
    (createEvent parse t srv db s req).resp =
      failureResp 405 ("Method Not Allowed") 405 ("Only POST requests are allowed") t ∧
    (createEvent parse t srv db s req).store = s ∧
    (createEvent parse t srv db s req).ops = [] := by
  simp [createEvent, hm]

theorem createEvent_bad_method_witness :
    reqBare.method ≠ "POST" ∧
    (createEvent parse0 17 18 firestoreDB store0 reqBare).resp =
      failureResp 405 ("Method Not Allowed") 405 ("Only POST requests are allowed") 17 ∧
    (createEvent parse0 17 18 firestoreDB store0 reqBare).store = store0 ∧
    (createEvent parse0 17 18 firestoreDB store0 reqBare).ops = [] := by
  have h := createEvent_bad_method parse0 17 18 firestoreDB store0 reqBare (by decide)
  exact ⟨by decide, h.1, h.2.1, h.2.2⟩

/-- C6: every invocation of `getAllEvents` issues the collection read, and a
non-GET request whose read succeeded still answers HTTP 405 with the failure
envelope — the read happens before the method check. -/
theorem getAllEvents_reads_first (t : Nat) (db : DB) (s : Store) (req : Req) :
    (getAllEvents t db s req).ops = [StoreOp.collGet] ∧
    (req.method ≠ "GET" → ∀ evs, db.collGet s = Except.ok evs →
      (getAllEvents t db s req).resp =
        failureResp 405 ("Method Not Allowed") 405 ("Only GET requests are allowed") t) := by
  constructor
  · cases h : db.collGet s
    · simp [getAllEvents, h]
    · simp only [getAllEvents, h]
      split <;> rfl
  · intro hm evs hok
    simp [getAllEvents, hok, hm]

theorem getAllEvents_reads_first_witness :
    (getAllEvents 21 firestoreDB store0 reqCreateBad).ops = [StoreOp.collGet] ∧
    reqCreateBad.method ≠ "GET" ∧
    firestoreDB.collGet store0 = Except.ok [] ∧
    (getAllEvents 21 firestoreDB store0 reqCreateBad).resp =
      failureResp 405 ("Method Not Allowed") 405 ("Only GET requests are allowed") 21 :=
  ⟨(getAllEvents_reads_first 21 firestoreDB store0 reqCreateBad).1, by decide, rfl,
    (getAllEvents_reads_first 21 firestoreDB store0 reqCreateBad).2 (by decide) [] rfl⟩

/-- C7: a valid POST create whose insert succeeds answers HTTP 201 with the
store-assigned id and the submitted field values, the date echoed being the
raw input string while the stored document holds the parsed timestamp. -/
theorem createEvent_success_raw_date (parse : String → Option Int) (t srv : Nat)
    (db : DB) (s : Store) (req : Req) (newId : String) (s1 : Store)
    (hm : req.method = "POST")
    (h1 : falsy req.body.title = false) (h2 : falsy req.body.description = false)
    (h3 : falsy req.body.date = false) (h4 : falsy req.body.location = false)
    (h5 : falsy req.body.organizer = false) (h6 : falsy req.body.eventType = false)
    (hadd : db.add s (createDoc parse srv req.body) = Except.ok (newId, s1)) :
    (createEvent parse t srv db s req).resp =
      ⟨201, RespBody.createSuccess newId req.body.title req.body.description req.body.date
        req.body.location req.body.organizer req.body.eventType t⟩ ∧
    (createEvent parse t srv db s req).store = s1 ∧
    (createDoc parse srv req.body).date = jsNewDate parse req.body.date := by
  refine ⟨?_, ?_, rfl⟩ <;> simp [createEvent, hm, h1, h2, h3, h4, h5, h6, hadd]

theorem createEvent_success_raw_date_witness :
    reqCreate0.method = "POST" ∧ falsy reqCreate0.body.title = false ∧
    falsy reqCreate0.body.description = false ∧ falsy reqCreate0.body.date = false ∧
    falsy reqCreate0.body.location = false ∧ falsy reqCreate0.body.organizer = false ∧
    falsy reqCreate0.body.eventType = false ∧
    firestoreDB.add store0 (createDoc parse0 30 reqCreate0.body) =
      Except.ok ("0", ⟨[("0", createDoc parse0 30 reqCreate0.body)], 1⟩) ∧
    (createEvent parse0 29 30 firestoreDB store0 reqCreate0).resp =
      ⟨201, RespBody.createSuccess ("0") (some ("Meetup")) (some ("d"))
        (some ("2024-05-01")) (some ("Hall A")) (some ("Org")) (some ("social")) 29⟩ := by
  have h := createEvent_success_raw_date parse0 29 30 firestoreDB store0 reqCreate0
    "0" ⟨[("0", createDoc parse0 30 reqCreate0.body)], 1⟩ rfl rfl rfl rfl rfl rfl rfl rfl
  exact ⟨rfl, rfl, rfl, rfl, rfl, rfl, rfl, rfl, h.1⟩

/-- C10: when the query string lacks the id parameter, `getEventById` (on a
GET), `updateEvent` and `deleteEvent` each invoke the store with the absent
document id and answer the HTTP 500 generic failure envelope, not a 400. -/
theorem missing_id_param_500 (parse : String → Option Int) (t srv : Nat)
    (s : Store) (req : Req)
    (hid : req.queryId = none) (hm : req.method = "GET") :
    ((getEventById t firestoreDB s req).resp =
        failureResp 500 ("Error fetching event") 500 ("Unable to get event") t ∧
      (getEventById t firestoreDB s req).ops = [StoreOp.docGet none]) ∧
    ((updateEvent parse t srv firestoreDB s req).resp =
        failureResp 500 ("Error updating event") 500 ("Unable to update event") t ∧
      (updateEvent parse t srv firestoreDB s req).ops = [StoreOp.docUpdate none]) ∧
    ((deleteEvent t firestoreDB s req).resp =
        failureResp 500 ("Error deleting event") 500 ("Unable to delete event") t ∧
      (deleteEvent t firestoreDB s req).ops = [StoreOp.docDelete none]) := by
  refine ⟨⟨?_, ?_⟩, ⟨?_, ?_⟩, ⟨?_, ?_⟩⟩ <;>
    simp [getEventById, updateEvent, deleteEvent, firestoreDB, hid, hm]

theorem missing_id_param_500_witness :
    reqBare.queryId = none ∧ reqBare.method = "GET" ∧
    (getEventById 41 firestoreDB store0 reqBare).resp =
      failureResp 500 ("Error fetching event") 500 ("Unable to get event") 41 ∧
    (updateEvent parse0 41 42 firestoreDB store0 reqBare).resp =
      failureResp 500 ("Error updating event") 500 ("Unable to update event") 41 ∧
    (deleteEvent 41 firestoreDB store0 reqBare).resp =
      failureResp 500 ("Error deleting event") 500 ("Unable to delete event") 41 := by
  have h := missing_id_param_500 parse0 41 42 store0 reqBare rfl rfl
  exact ⟨rfl, rfl, h.1.1, h.2.1.1, h.2.2.1⟩

/-- C9: for every request, store, store client and clock value, each of the
six handlers only ever produces a 400, 405 or 500 response whose body is the
failure envelope stamped with the time captured at the start of handling. -/
theorem handlers_failure_envelope (parse : String → Option Int) (t srv : Nat)
    (db : DB) (s : Store) (req : Req) :
    failureWellFormed (createEvent parse t srv db s req).resp t ∧
    failureWellFormed (getAllEvents t db s req).resp t ∧
    failureWellFormed (getEventById t db s req).resp t ∧
    failureWellFormed (updateEvent parse t srv db s req).resp t ∧
    failureWellFormed (deleteEvent t db s req).resp t ∧
    failureWellFormed (filterEvents parse t db s req).resp t := by
  refine ⟨?_, ?_, ?_, ?_, ?_, ?_⟩ <;>
    · simp only [failureWellFormed, createEvent, getAllEvents, getEventById, updateEvent,
        deleteEvent, filterEvents]
      repeat' split
      all_goals simp [failureResp]

theorem handlers_failure_envelope_witness :
    (filterEvents parse0 47 firestoreDB store0 reqBare).resp.status = 400 ∧
    ∃ m c dtl, (filterEvents parse0 47 firestoreDB store0 reqBare).resp.body =
      RespBody.failure m c dtl 47 :=
  ⟨rfl, (handlers_failure_envelope parse0 47 48 firestoreDB store0 reqBare).2.2.2.2.2
    (Or.inl rfl)⟩

/-- C1: creating an event whose eventType is "social" through a valid POST
and then filtering with `eventType=social` and no date answers HTTP 200 with
the raw array of matches, and that array contains the id the create call
returned. -/
theorem create_then_filter_social (parse : String → Option Int) (t1 t2 srv : Nat)
    (s : Store) (req reqF : Req)
    (hm : req.method = "POST")
    (h1 : falsy req.body.title = false) (h2 : falsy req.body.description = false)
    (h3 : falsy req.body.date = false) (h4 : falsy req.body.location = false)
    (h5 : falsy req.body.organizer = false)
    (he : req.body.eventType = some ("social"))
    (hfe : reqF.queryEventType = some ("social")) (hfd : reqF.queryDate = none) :
    ∃ newId evs,
      (createEvent parse t1 srv firestoreDB s req).resp =
        ⟨201, RespBody.createSuccess newId req.body.title req.body.description
          req.body.date req.body.location req.body.organizer req.body.eventType t1⟩ ∧
      (filterEvents parse t2 firestoreDB
          (createEvent parse t1 srv firestoreDB s req).store reqF).resp =
        ⟨200, RespBody.filterRaw evs⟩ ∧
      newId ∈ evs.map Prod.fst := by
  have h6 : falsy req.body.eventType = false := by rw [he]; rfl
  have hpred : matchesFilter (some ("social")) none (createDoc parse srv req.body) = true := by
    simp [matchesFilter, createDoc, he]
  refine ⟨toString s.nextId,
    (s.docs ++ [(toString s.nextId, createDoc parse srv req.body)]).filter
      (fun p => matchesFilter (some ("social")) none p.2), ?_, ?_, ?_⟩
  · simp [createEvent, hm, h1, h2, h3, h4, h5, h6, firestoreDB]
  · have hfsoc : falsy (some ("social")) = false := rfl
    have hfnone : falsy none = true := rfl
    simp [createEvent, hm, h1, h2, h3, h4, h5, h6, firestoreDB, filterEvents, hfe, hfd,
      hfsoc, hfnone]
  · simp [List.filter_append, hpred, List.mem_append]

theorem create_then_filter_social_witness :
    reqCreate0.method = "POST" ∧
    reqCreate0.body.eventType = some ("social") ∧
    reqFilterSocial.queryEventType = some ("social") ∧
    reqFilterSocial.queryDate = none ∧
    ∃ newId evs,
      (createEvent parse0 51 52 firestoreDB store0 reqCreate0).resp =
        ⟨201, RespBody.createSuccess newId reqCreate0.body.title reqCreate0.body.description
          reqCreate0.body.date reqCreate0.body.location reqCreate0.body.organizer
          reqCreate0.body.eventType 51⟩ ∧
      (filterEvents parse0 53 firestoreDB
          (createEvent parse0 51 52 firestoreDB store0 reqCreate0).store reqFilterSocial).resp =
        ⟨200, RespBody.filterRaw evs⟩ ∧
      newId ∈ evs.map Prod.fst :=
  ⟨rfl, rfl, rfl, rfl,
    create_then_filter_social parse0 51 53 52 store0 reqCreate0 reqFilterSocial
      rfl rfl rfl rfl rfl rfl rfl rfl rfl⟩

end Panda
